import Mathlib

/-!
Verification of haiku integration-test scaffolding
(`haiku/_src/integration/descriptors.py` and
`haiku/_src/integration/bfloat16_test.py`).

Two shallow embeddings are used, matching the two aspects of the code:

* a *structural* model of modules (`Mod`) for the descriptor registry,
  the wrapping adapters, `unwrap` and `unroll_descriptors`; wrapping
  adapters are modelled as constructors holding the wrapped module, and
  an unroller reference is identified by its `__name__` string (which is
  exactly what `unroll_descriptors` consumes for naming);

* a *semantic* model for the precision conformance check in
  `bfloat16_test.py`: arrays are leaves carrying a dtype and an abstract
  payload, parameter/state containers are finitely nested trees, and a
  module under test is an opaque `init`/`apply` pair, mirroring
  `hk.transform_with_state` output (the library internals are external
  collaborators and stay abstract).

External numeric-framework primitives (`jax.random.PRNGKey`,
`jax.random.uniform`, `astype`, `expand_dims`, `tree_map`) are modelled
as deterministic functions on these types.
-/

set_option autoImplicit false

namespace Descriptors

/-- Numeric dtypes that occur in the two files: `jnp.float32`,
`jnp.bfloat16`, `jnp.int32`, plus one more float type so theorems over a
generic `test_dtype` are not vacuous. -/
inductive DType where
  | f32
  | bf16
  | f16
  | i32
deriving DecidableEq, Repr

/-- An array leaf: its dtype together with an abstract payload standing
for the numeric contents.  `astype` changes only the dtype, which is the
only part of casting the conformance check observes. -/
structure ArrayVal where
  dtype : DType
  data : Nat
deriving DecidableEq, Repr

/-- `v.astype(d)`: the same value, recorded under dtype `d`. -/
def ArrayVal.astype (v : ArrayVal) (d : DType) : ArrayVal :=
  ⟨d, v.data⟩

/-- A tensor: shape, dtype, abstract payload.  `jax.random.uniform`
produces one; the conformance check only ever reads its shape and dtype. -/
structure Tensor where
  shape : List Nat
  dtype : DType
  data : Nat
deriving DecidableEq, Repr

/-- `x.astype(d)` on tensors. -/
def Tensor.astype (x : Tensor) (d : DType) : Tensor :=
  ⟨x.shape, d, x.data⟩

/-- `jnp.expand_dims(x, axis=0)`: a synthetic leading axis of length one. -/
def expand_dims (x : Tensor) : Tensor :=
  ⟨1 :: x.shape, x.dtype, x.data⟩

/-- Structural model of a module value, as built by the descriptor
factories.  `base` is any concrete (non-`Wrapped`) library module,
identified by name.  The three `Wrapped` subclasses of `descriptors.py`
are the other constructors; `recurrent` additionally records the
unroller reference (by its `__name__`), `none` standing for Python
`None`. -/
inductive Mod where
  | base (name : String)
  | training (wrapped : Mod)
  | recurrent (wrapped : Mod) (unroller : Option String)
  | resetCoreAdapter (wrapped : Mod)
deriving DecidableEq, Repr

/-- `isinstance(module, Wrapped)`: everything except a bare concrete
module is an instance of the `Wrapped` class. -/
def Mod.isWrapped : Mod → Bool
  | .base _ => false
  | .training _ => true
  | .recurrent _ _ => true
  | .resetCoreAdapter _ => true

/-- The wrapped pointer of a `Wrapped` instance (a `base` module has no
such pointer; the loop in `unwrap` never dereferences it there). -/
def Mod.wrappedOf : Mod → Option Mod
  | .base _ => none
  | .training m => some m
  | .recurrent m _ => some m
  | .resetCoreAdapter m => some m

/-- `unwrap(module)`: `while isinstance(module, Wrapped): module =
module.wrapped; return module`.  The Python loop terminates because the
wrapping structure is finite and acyclic by construction; here that
structure is the inductive type `Mod`, and the loop is structural
recursion, total by construction. -/
def unwrap : Mod → Mod
  | .base n => .base n
  | .training m => unwrap m
  | .recurrent m _ => unwrap m
  | .resetCoreAdapter m => unwrap m

/-- `ModuleDescriptor` named tuple.  The source declares the field
default `dtype = jnp.float32`; the default is written out explicitly at
every use site below. -/
structure ModuleDescriptor where
  name : String
  create : Unit → Mod
  shape : List Nat
  dtype : DType

/-- `BATCH_SIZE = 8`. -/
def BATCH_SIZE : Nat := 8

/-- `BATCH_MODULES`: the seventeen feed-forward descriptors, in source
order, with their exact names, shapes and dtypes. -/
def BATCH_MODULES : List ModuleDescriptor := [
  ⟨"BatchNorm", fun _ => .training (.base "BatchNorm"), [BATCH_SIZE, 2, 2, 3], .f32⟩,
  ⟨"Bias", fun _ => .base "Bias", [BATCH_SIZE, 3, 3, 3], .f32⟩,
  ⟨"Conv1D", fun _ => .base "Conv1D", [BATCH_SIZE, 2, 2], .f32⟩,
  ⟨"Conv1DTranspose", fun _ => .base "Conv1DTranspose", [BATCH_SIZE, 2, 2], .f32⟩,
  ⟨"Conv2D", fun _ => .base "Conv2D", [BATCH_SIZE, 2, 2, 2], .f32⟩,
  ⟨"Conv2DTranspose", fun _ => .base "Conv2DTranspose", [BATCH_SIZE, 2, 2, 2], .f32⟩,
  ⟨"Conv3D", fun _ => .base "Conv3D", [BATCH_SIZE, 2, 2, 2, 2], .f32⟩,
  ⟨"Conv3DTranspose", fun _ => .base "Conv3DTranspose", [BATCH_SIZE, 2, 2, 2, 2], .f32⟩,
  ⟨"Embed", fun _ => .base "Embed", [BATCH_SIZE], .i32⟩,
  ⟨"Flatten", fun _ => .base "Flatten", [BATCH_SIZE, 3, 3, 3], .f32⟩,
  ⟨"InstanceNorm", fun _ => .base "InstanceNorm", [BATCH_SIZE, 3, 2], .f32⟩,
  ⟨"LayerNorm", fun _ => .base "LayerNorm", [BATCH_SIZE, 3, 2], .f32⟩,
  ⟨"SpectralNorm", fun _ => .base "SpectralNorm", [BATCH_SIZE, 3, 2], .f32⟩,
  ⟨"Linear", fun _ => .base "Linear", [BATCH_SIZE, 1], .f32⟩,
  ⟨"Sequential", fun _ => .base "Sequential", [BATCH_SIZE, 2, 2], .f32⟩,
  ⟨"nets.ResNet50", fun _ => .training (.base "nets.ResNet50"), [BATCH_SIZE, 3, 3, 2], .f32⟩,
  ⟨"nets.MLP", fun _ => .base "nets.MLP", [BATCH_SIZE, 3], .f32⟩]

/-- `RNN_CORES`: the four recurrent-cell descriptors, in source order. -/
def RNN_CORES : List ModuleDescriptor := [
  ⟨"ResetCore", fun _ => .resetCoreAdapter (.base "ResetCore(IdentityCore)"), [BATCH_SIZE, 128], .f32⟩,
  ⟨"GRU", fun _ => .base "GRU", [BATCH_SIZE, 128], .f32⟩,
  ⟨"LSTM", fun _ => .base "LSTM", [BATCH_SIZE, 128], .f32⟩,
  ⟨"VanillaRNN", fun _ => .base "VanillaRNN", [BATCH_SIZE, 128], .f32⟩]

/-- `recurrent_factory(create_core, unroller)`: a closure over the given
core factory and unroller, building a fresh `Recurrent` wrapper per
call. -/
def recurrent_factory (create_core : Unit → Mod) (unroller : Option String) :
    Unit → Mod :=
  fun _ => .recurrent (create_core ()) unroller

/-- The name rewriting of `unroll_descriptors`:
`"Recurrent({})".format(name)` when `unroller is None`, else
`"Recurrent({}, {})".format(name, unroller.__name__)`. -/
def unrollName (name : String) (unroller : Option String) : String :=
  match unroller with
  | none => "Recurrent(" ++ name ++ ")"
  | some u => "Recurrent(" ++ name ++ ", " ++ u ++ ")"

/-- `unroll_descriptors(descriptors, unroller=None)`: the source builds
`out = []`, appends one rewritten descriptor per base descriptor in a
loop, and returns the accumulated tuple; modelled as the same
accumulating left fold. -/
def unroll_descriptors (descriptors : List ModuleDescriptor)
    (unroller : Option String) : List ModuleDescriptor :=
  descriptors.foldl
    (fun out d =>
      out ++ [⟨unrollName d.name unroller,
              recurrent_factory d.create unroller, d.shape, d.dtype⟩])
    []

/-- `RECURRENT_MODULES`: `unroll_descriptors(RNN_CORES,
hk.dynamic_unroll) + unroll_descriptors(RNN_CORES, hk.static_unroll)`;
the two unrollers are referenced by their `__name__`s. -/
def RECURRENT_MODULES : List ModuleDescriptor :=
  unroll_descriptors RNN_CORES (some "dynamic_unroll") ++
  unroll_descriptors RNN_CORES (some "static_unroll")

/-! Semantic model of the `Recurrent` adapter (`descriptors.py`,
`Recurrent.__call__`).  A recurrent core is an `initial_state`/step
pair over an abstract state type; an unroller is any function taking
the core, the (time-leading) inputs and an initial state.  The adapter
is fallible: Python raises `IndexError` on `x.shape[0]` for a
zero-rank input, and `TypeError` when `self.unroller` is `None`
(calling `None`); both surface as `none`. -/

/-- A recurrent core as the adapter consumes it: `initial_state(batch_size)`
and single-step `__call__(inputs, state)`. -/
structure RNNCoreSem (σ : Type) where
  initial_state : Nat → σ
  step : Tensor → σ → Tensor × σ

/-- An unroll strategy: `(core, inputs, initial_state) -> (outputs, state)`. -/
def UnrollerSem (σ : Type) : Type :=
  RNNCoreSem σ → Tensor → σ → Tensor × σ

/-- The `Recurrent` wrapper: a wrapped core plus the stored `unroller`
(`None` modelled as `none`). -/
structure Recurrent (σ : Type) where
  wrapped : RNNCoreSem σ
  unroller : Option (UnrollerSem σ)

/-- `Recurrent.__call__(x)`:
`initial_state = self.wrapped.initial_state(batch_size=x.shape[0])`,
`x = jnp.expand_dims(x, axis=0)`,
`return self.unroller(self.wrapped, x, initial_state)`.
The unroller is applied unconditionally; there is no branch on
`self.unroller is None`. -/
def Recurrent.call {σ : Type} (r : Recurrent σ) (x : Tensor) :
    Option (Tensor × σ) :=
  match x.shape with
  | [] => none
  | b :: _ =>
    let initial_state := r.wrapped.initial_state b
    let x1 := expand_dims x
    match r.unroller with
    | some u => some (u r.wrapped x1 initial_state)
    | none => none

/-- What the spec sentence describes for `Recurrent.__call__`: the same
derivation of the initial state and the synthetic time axis, but with a
direct one-step application of the inner module when the unroller is
none.  Stated from the spec's words, for comparison with
`Recurrent.call`. -/
def Recurrent.callSpec {σ : Type} (r : Recurrent σ) (x : Tensor) :
    Option (Tensor × σ) :=
  match x.shape with
  | [] => none
  | b :: _ =>
    let initial_state := r.wrapped.initial_state b
    let x1 := expand_dims x
    match r.unroller with
    | some u => some (u r.wrapped x1 initial_state)
    | none => some (r.wrapped.step x1 initial_state)

/-! Semantic model of the precision conformance check
(`bfloat16_test.py`).  Parameter/state/output containers are finitely
nested trees of array leaves (JAX pytrees); a transformed module is an
opaque `init`/`apply` pair as returned by `hk.transform_with_state`. -/

/-- A finitely nested container of array leaves, as `jax.tree_map`
traverses it: a leaf, or a (possibly empty) sequence of subtrees,
encoded head/tail to keep recursion plainly structural. -/
inductive PyTree (α : Type) where
  | leaf (v : α)
  | nil
  | cons (hd tl : PyTree α)
deriving DecidableEq, Repr

namespace PyTree

/-- `jax.tree_map(f, t)`. -/
def map {α β : Type} (f : α → β) : PyTree α → PyTree β
  | .leaf v => .leaf (f v)
  | .nil => .nil
  | .cons hd tl => .cons (map f hd) (map f tl)

/-- `jax.tree_leaves(t)`, in traversal order. -/
def leaves {α : Type} : PyTree α → List α
  | .leaf v => [v]
  | .nil => []
  | .cons hd tl => leaves hd ++ leaves tl

end PyTree

/-- A module under test, after `hk.transform_with_state`: `init_fn(rng, x)`
returns the fresh `(params, state)` pair and `apply_fn(params, state,
rng, x)` returns `(y, state)`.  Both are opaque external computations;
rng keys are abstract `Nat`s. -/
structure TModule where
  init : Nat → Tensor → PyTree ArrayVal × PyTree ArrayVal
  apply : PyTree ArrayVal → PyTree ArrayVal → Nat → Tensor → PyTree ArrayVal × PyTree ArrayVal

/-- `jax.random.PRNGKey(seed)`: deterministic key derivation, abstracted
as the seed itself. -/
def PRNGKey (seed : Nat) : Nat := seed

/-- `jax.random.uniform(rng, shape)`: a float32 tensor of the requested
shape whose contents are a function of the key alone (deterministic
sampling). -/
def random_uniform (rng : Nat) (shape : List Nat) : Tensor :=
  ⟨shape, .f32, rng⟩

/-- The cast `lambda v: v.astype(test_dtype) if v.dtype == jnp.float32
else v` from `assert_dtype`. -/
def f32_to_test_dtype (test_dtype : DType) (v : ArrayVal) : ArrayVal :=
  if v.dtype = DType.f32 then v.astype test_dtype else v

/-- The per-leaf assertion body of `assert_dtype`'s inner helper:
`if v.dtype != jnp.int32: self.assertEqual(v.dtype, test_dtype)` —
`true` when the leaf passes. -/
def leafDtypeOk (test_dtype : DType) (v : ArrayVal) : Bool :=
  v.dtype = DType.i32 || v.dtype = test_dtype

/-- `jax.tree_map(assert_dtype, t)` passes iff every leaf passes. -/
def treeDtypeOk (test_dtype : DType) (t : PyTree ArrayVal) : Bool :=
  t.leaves.all (leafDtypeOk test_dtype)

/-- Outcome of one conformance-check invocation: the harness's skip /
pass / assertion-failure trichotomy. -/
inductive Outcome where
  | skip
  | pass
  | fail
deriving DecidableEq, Repr

/-- The `for _ in range(n)` application loop of `assert_dtype`: each
iteration applies the module, threading the updated state, and asserts
dtypes on the output and the updated state; the first failed assertion
aborts the test. -/
def applyLoop (m : TModule) (test_dtype : DType) (params : PyTree ArrayVal)
    (rng : Nat) (x : Tensor) : Nat → PyTree ArrayVal → Outcome
  | 0, _ => .pass
  | Nat.succ n, state =>
    let ys := m.apply params state rng x
    if treeDtypeOk test_dtype ys.1 && treeDtypeOk test_dtype ys.2 then
      applyLoop m test_dtype params rng x n ys.2
    else .fail

/-- The body of `assert_dtype` after the skip checks, with the rng key
explicit (the caller fixes it to `PRNGKey 42`): sample a float32 input,
initialize in float32, cast float32 leaves of `(params, state)` to the
test dtype, cast the input, then run the two-application loop. -/
def assert_dtype_body (m : TModule) (test_dtype : DType) (shape : List Nat)
    (rng : Nat) : Outcome :=
  let x := random_uniform rng shape
  let ps := m.init rng x
  let params := ps.1.map (f32_to_test_dtype test_dtype)
  let state := ps.2.map (f32_to_test_dtype test_dtype)
  let xc := x.astype test_dtype
  applyLoop m test_dtype params rng xc 2 state

/-- `DTypeTestCase.assert_dtype(test_dtype, module_fn, shape,
input_dtype)`: skip unless the first local device platform is `'tpu'`;
skip unless `input_dtype` is float32; otherwise run the body with
`rng = jax.random.PRNGKey(42)`.  The platform string models
`jax.local_devices()[0].platform`. -/
def assert_dtype (platform : String) (m : TModule) (test_dtype : DType)
    (shape : List Nat) (input_dtype : DType) : Outcome :=
  if platform ≠ "tpu" then .skip
  else if input_dtype ≠ DType.f32 then .skip
  else assert_dtype_body m test_dtype shape (PRNGKey 42)

/-- Modelled from the spec: `descriptors.ALL_MODULES`, referenced by
`bfloat16_test.py` via `test_utils.combined_named_parameters`, is not
defined in this fragment of `descriptors.py`.  The spec says the test
entry point takes triples "drawn from the registry", whose contract is
the three ordered sequences; `ALL_MODULES` is modelled as their
concatenation in declaration order. -/
def ALL_MODULES : List ModuleDescriptor :=
  BATCH_MODULES ++ RNN_CORES ++ RECURRENT_MODULES

/-- `Bfloat16Test.test_bfloat16(module_fn, shape, dtype)`: one
conformance check with `test_dtype` fixed to bfloat16.  `sem`
interprets the descriptor's factory as the externally transformed
module (the module library is an external collaborator); `platform` is
the ambient device platform. -/
def test_bfloat16 (platform : String) (sem : (Unit → Mod) → TModule)
    (d : ModuleDescriptor) : Outcome :=
  assert_dtype platform (sem d.create) DType.bf16 d.shape d.dtype

/-- The parameterized test suite: `test_bfloat16` is instantiated once
per registry entry, in registry order. -/
def bfloat16TestRuns (platform : String) (sem : (Unit → Mod) → TModule) :
    List Outcome :=
  ALL_MODULES.map (test_bfloat16 platform sem)

/-- The unroller reference stored in a `Recurrent` wrapper, when the
module is one (`some u` for `Recurrent(_, u)`; `none` for any other
module). -/
def Mod.unrollerOf : Mod → Option (Option String)
  | .recurrent _ u => some u
  | .base _ => none
  | .training _ => none
  | .resetCoreAdapter _ => none

/-- The `name="Embed"` entry of `BATCH_MODULES` (position 8, after the
convolutions). -/
def EmbedDescriptor : ModuleDescriptor :=
  BATCH_MODULES.get ⟨8, by decide⟩

/-- The per-leaf dtype assertion of `assert_dtype`, as a proposition:
every leaf whose dtype is not `int32` has exactly the test dtype. -/
def TreeLeavesTd (test_dtype : DType) (t : PyTree ArrayVal) : Prop :=
  ∀ v ∈ t.leaves, v.dtype ≠ DType.i32 → v.dtype = test_dtype

/-- A concrete recurrent core for evaluating the `Recurrent` adapter:
its initial state is the batch size and its step is the identity
(after `IdentityCore` in `descriptors.py`). -/
def idCoreSem : RNNCoreSem Nat :=
  ⟨fun b => b, fun x s => (x, s)⟩

/-- A concrete unroll strategy for witnesses: apply the core once. -/
def oneStepUnroller : UnrollerSem Nat :=
  fun core x s => core.step x s

/-- A concrete transformed module for witnesses: init produces one
float32 parameter leaf and one float32 state leaf; apply echoes the
parameters as output and leaves the state unchanged. -/
def constModule : TModule :=
  ⟨fun _ _ => (.leaf ⟨.f32, 0⟩, .leaf ⟨.f32, 1⟩),
   fun params state _ _ => (params, state)⟩

/-! Helper lemmas (shared; not tied to any one claim). -/

/-- An accumulating append fold is a map. -/
theorem foldl_append_eq_map {α β : Type} (g : α → β) :
    ∀ (ds : List α) (acc : List β),
      ds.foldl (fun out d => out ++ [g d]) acc = acc ++ ds.map g := by
  intro ds
  induction ds with
  | nil => intro acc; simp
  | cons d rest ih =>
    intro acc
    simp only [List.foldl_cons, List.map_cons, ih, List.append_assoc,
      List.singleton_append]

/-- `unroll_descriptors` in closed form: one rewritten descriptor per
base descriptor, in order. -/
theorem unroll_descriptors_eq_map (ds : List ModuleDescriptor)
    (u : Option String) :
    unroll_descriptors ds u = ds.map (fun d =>
      ⟨unrollName d.name u, recurrent_factory d.create u, d.shape, d.dtype⟩) := by
  simpa [unroll_descriptors] using
    foldl_append_eq_map
      (fun d : ModuleDescriptor =>
        (⟨unrollName d.name u, recurrent_factory d.create u, d.shape, d.dtype⟩ :
          ModuleDescriptor))
      ds []

/-- The Bool-level leaf check agrees with the Prop-level one. -/
theorem treeDtypeOk_iff (td : DType) (t : PyTree ArrayVal) :
    treeDtypeOk td t = true ↔ TreeLeavesTd td t := by
  simp only [treeDtypeOk, TreeLeavesTd, List.all_eq_true, leafDtypeOk,
    Bool.or_eq_true, decide_eq_true_eq]
  constructor
  · intro h v hv hne
    rcases h v hv with h1 | h1
    · exact absurd h1 hne
    · exact h1
  · intro h v hv
    by_cases hi : v.dtype = DType.i32
    · exact Or.inl hi
    · exact Or.inr (h v hv hi)

/-- The application loop never skips. -/
theorem applyLoop_ne_skip (m : TModule) (td : DType) (params : PyTree ArrayVal)
    (rng : Nat) (x : Tensor) :
    ∀ (n : Nat) (state : PyTree ArrayVal),
      applyLoop m td params rng x n state ≠ Outcome.skip := by
  intro n
  induction n with
  | zero => intro state; simp [applyLoop]
  | succ k ih =>
    intro state
    simp only [applyLoop]
    split
    · exact ih _
    · simp

/-! Claim theorems. -/

/-- C7: for every input sequence of base descriptors,
`unroll_descriptors` returns one new descriptor per base descriptor, in
order, whose name is `Recurrent(<base-name>)` when no strategy is given
and `Recurrent(<base-name>, <strategy-name>)` otherwise, whose factory
wraps the freshly built base module in a `Recurrent` adapter holding
the chosen strategy, and whose shape and dtype equal the base
descriptor's unchanged. -/
theorem unroll_descriptors_rewrite (ds : List ModuleDescriptor)
    (u : Option String) :
    unroll_descriptors ds u = ds.map (fun d =>
      ⟨(match u with
        | none => "Recurrent(" ++ d.name ++ ")"
        | some s => "Recurrent(" ++ d.name ++ ", " ++ s ++ ")"),
       fun _ => Mod.recurrent (d.create ()) u, d.shape, d.dtype⟩) :=
  unroll_descriptors_eq_map ds u

/-- C6: each factory produced by `unroll_descriptors` closes over its
own base descriptor's factory — the `i`-th generated factory builds a
`Recurrent` wrapper around the `i`-th base module, for every index, so
no late-bound sharing of the loop variable can occur; and the twelve
descriptors generated from `RNN_CORES` with no strategy, the dynamic
strategy and the static strategy have pairwise distinct names. -/
theorem unroll_descriptors_capture :
    (∀ (ds : List ModuleDescriptor) (u : Option String) (i : Nat)
        (h1 : i < ds.length) (h2 : i < (unroll_descriptors ds u).length),
        ((unroll_descriptors ds u).get ⟨i, h2⟩).create () =
          Mod.recurrent ((ds.get ⟨i, h1⟩).create ()) u) ∧
    ((unroll_descriptors RNN_CORES none ++
      unroll_descriptors RNN_CORES (some "dynamic_unroll") ++
      unroll_descriptors RNN_CORES (some "static_unroll")).map
        ModuleDescriptor.name).Nodup := by
  constructor
  · intro ds u i h1 h2
    simp only [unroll_descriptors_eq_map, List.get_eq_getElem,
      List.getElem_map]
    rfl
  · decide

/-- Witness for C6 at a concrete index: the second dynamic-unroll
descriptor's factory builds a `Recurrent` wrapper around the second RNN
core (the GRU), not any other core. -/
theorem unroll_descriptors_capture_witness :
    ((unroll_descriptors RNN_CORES (some "dynamic_unroll")).get
        ⟨1, by decide⟩).create () =
      Mod.recurrent ((RNN_CORES.get ⟨1, by decide⟩).create ())
        (some "dynamic_unroll") :=
  unroll_descriptors_capture.1 RNN_CORES (some "dynamic_unroll") 1
    (by decide) (by decide)

/-- C1 counterexample: `RECURRENT_MODULES` holds no null/default
(no-strategy) variant — in particular there is no descriptor named
`Recurrent(GRU)`, which is what `unroll_descriptors(RNN_CORES)` with no
strategy would have produced for the GRU core. -/
theorem recurrent_modules_no_null_variant :
    "Recurrent(GRU)" ∉ RECURRENT_MODULES.map ModuleDescriptor.name := by
  decide

/-- C1 (amended): `RECURRENT_MODULES` contains exactly one descriptor
per RNN core crossed with each of the two explicit unroll strategies
(`dynamic_unroll` then `static_unroll`), eight in all, each factory
holding its strategy; no null/default-strategy variant is present. -/
theorem recurrent_modules_enumeration :
    RECURRENT_MODULES.map ModuleDescriptor.name =
      ["Recurrent(ResetCore, dynamic_unroll)",
       "Recurrent(GRU, dynamic_unroll)",
       "Recurrent(LSTM, dynamic_unroll)",
       "Recurrent(VanillaRNN, dynamic_unroll)",
       "Recurrent(ResetCore, static_unroll)",
       "Recurrent(GRU, static_unroll)",
       "Recurrent(LSTM, static_unroll)",
       "Recurrent(VanillaRNN, static_unroll)"] ∧
    RECURRENT_MODULES.map (fun d => (d.create ()).unrollerOf) =
      [some (some "dynamic_unroll"), some (some "dynamic_unroll"),
       some (some "dynamic_unroll"), some (some "dynamic_unroll"),
       some (some "static_unroll"), some (some "static_unroll"),
       some (some "static_unroll"), some (some "static_unroll")] := by
  constructor
  · decide
  · decide

/-- C9: `unwrap` is a total function (the while loop terminates on
every finitely nested wrapping, here the inductive type `Mod`), its
result is never a `Wrapped` instance — at arbitrary nesting depth, not
just depth one — and in particular, for every descriptor of the
registry's three sequences, unwrapping a freshly created module yields
a non-wrapped terminal. -/
theorem unwrap_terminal :
    (∀ m : Mod, (unwrap m).isWrapped = false) ∧
    ((BATCH_MODULES ++ RNN_CORES ++ RECURRENT_MODULES).all
        (fun d => !(unwrap (d.create ())).isWrapped)) = true := by
  constructor
  · intro m
    induction m with
    | base n => rfl
    | training w ih => simpa [unwrap] using ih
    | recurrent w u ih => simpa [unwrap] using ih
    | resetCoreAdapter w ih => simpa [unwrap] using ih
  · decide

/-- C2 counterexample: a `Recurrent` adapter whose unroller is `None`
does not fall back to direct one-step application of the inner module —
it fails (Python calls `None`), while the spec's description
(`Recurrent.callSpec`) produces the one-step result. -/
theorem recurrent_call_none_cex :
    Recurrent.call ⟨idCoreSem, none⟩ ⟨[8, 128], DType.f32, 0⟩ = none ∧
    Recurrent.callSpec ⟨idCoreSem, none⟩ ⟨[8, 128], DType.f32, 0⟩ =
      some (⟨[1, 8, 128], DType.f32, 0⟩, 8) :=
  ⟨rfl, rfl⟩

/-- C2 (amended): for every adapter and every input with a leading
(batch) axis, invocation derives the inner module's initial state for
batch size `x.shape[0]`, expands the input with a synthetic leading
time axis of length one, and applies the stored unroller
unconditionally; when the unroller is none the invocation fails rather
than applying the inner module one step directly. -/
theorem recurrent_call_applies_unroller (σ : Type) (r : Recurrent σ)
    (x : Tensor) (b : Nat) (rest : List Nat) (hx : x.shape = b :: rest) :
    Recurrent.call r x =
      (match r.unroller with
       | some u => some (u r.wrapped (expand_dims x) (r.wrapped.initial_state b))
       | none => none) := by
  simp only [Recurrent.call, hx]

/-- Witness for C2 at a concrete adapter and input: with a one-step
unroller over the identity core, the call returns the time-expanded
input and the initial state for batch size 8. -/
theorem recurrent_call_applies_unroller_witness :
    Recurrent.call ⟨idCoreSem, some oneStepUnroller⟩ ⟨[8, 128], DType.f32, 0⟩ =
      some (⟨[1, 8, 128], DType.f32, 0⟩, 8) := by
  have h := recurrent_call_applies_unroller Nat
    ⟨idCoreSem, some oneStepUnroller⟩ ⟨[8, 128], DType.f32, 0⟩ 8 [128] rfl
  simpa [oneStepUnroller, idCoreSem, expand_dims] using h

/-- C3: the parameterized entry point runs one conformance check per
descriptor of the registry — exactly the triples of `BATCH_MODULES`,
`RNN_CORES` and `RECURRENT_MODULES`, in order — passing each
descriptor's factory, shape and dtype to `assert_dtype`. -/
theorem bfloat16_test_parameterization :
    ∀ (platform : String) (sem : (Unit → Mod) → TModule),
      bfloat16TestRuns platform sem =
        (BATCH_MODULES ++ RNN_CORES ++ RECURRENT_MODULES).map
          (fun d => assert_dtype platform (sem d.create) DType.bf16 d.shape d.dtype) ∧
      (bfloat16TestRuns platform sem).length =
        BATCH_MODULES.length + RNN_CORES.length + RECURRENT_MODULES.length := by
  intro platform sem
  constructor
  · rfl
  · simp [bfloat16TestRuns, ALL_MODULES, Nat.add_assoc]

/-- C4: when the check is not skipped, the module is applied exactly
twice with the updated state of the first application threaded into the
second; the check passes iff, after each of the two applications, every
leaf of the output and of the updated state whose dtype is not int32 is
exactly the test dtype, and it fails (the sole failure mode) iff that
condition is violated. -/
theorem assert_dtype_two_applications (m : TModule) (td : DType)
    (shape : List Nat) (params state0 : PyTree ArrayVal) (xc : Tensor)
    (y1 s1 y2 s2 : PyTree ArrayVal)
    (hp : params = (m.init (PRNGKey 42) (random_uniform (PRNGKey 42) shape)).1.map
      (f32_to_test_dtype td))
    (hs : state0 = (m.init (PRNGKey 42) (random_uniform (PRNGKey 42) shape)).2.map
      (f32_to_test_dtype td))
    (hx : xc = (random_uniform (PRNGKey 42) shape).astype td)
    (h1 : (y1, s1) = m.apply params state0 (PRNGKey 42) xc)
    (h2 : (y2, s2) = m.apply params s1 (PRNGKey 42) xc) :
    assert_dtype "tpu" m td shape DType.f32 ≠ Outcome.skip ∧
    (assert_dtype "tpu" m td shape DType.f32 = Outcome.pass ↔
      (TreeLeavesTd td y1 ∧ TreeLeavesTd td s1 ∧
       TreeLeavesTd td y2 ∧ TreeLeavesTd td s2)) ∧
    (assert_dtype "tpu" m td shape DType.f32 = Outcome.fail ↔
      ¬(TreeLeavesTd td y1 ∧ TreeLeavesTd td s1 ∧
        TreeLeavesTd td y2 ∧ TreeLeavesTd td s2)) := by
  have e : assert_dtype "tpu" m td shape DType.f32 =
      (if (treeDtypeOk td y1 && treeDtypeOk td s1) = true then
        (if (treeDtypeOk td y2 && treeDtypeOk td s2) = true then Outcome.pass
         else Outcome.fail)
       else Outcome.fail) := by
    have e0 : assert_dtype "tpu" m td shape DType.f32 =
        assert_dtype_body m td shape (PRNGKey 42) := by
      simp [assert_dtype]
    rw [e0]
    simp only [assert_dtype_body, applyLoop, ← hp, ← hs, ← hx, ← h1]
    by_cases hA : (treeDtypeOk td y1 && treeDtypeOk td s1) = true
    · simp only [hA, if_true, ← h2]
    · simp [hA]
  have hcond : (TreeLeavesTd td y1 ∧ TreeLeavesTd td s1 ∧
      TreeLeavesTd td y2 ∧ TreeLeavesTd td s2) ↔
      ((treeDtypeOk td y1 && treeDtypeOk td s1) = true ∧
       (treeDtypeOk td y2 && treeDtypeOk td s2) = true) := by
    simp [Bool.and_eq_true, treeDtypeOk_iff, and_assoc]
  rw [e]
  by_cases hA : (treeDtypeOk td y1 && treeDtypeOk td s1) = true
  · by_cases hB : (treeDtypeOk td y2 && treeDtypeOk td s2) = true
    · simp [hA, hB, hcond]
    · simp [hA, hB, hcond]
  · simp [hA, hcond]

/-- Witness for C4 at a concrete module (`constModule`) and shape: the
non-skipped check passes, every leaf after both applications being
bfloat16. -/
theorem assert_dtype_two_applications_witness :
    assert_dtype "tpu" constModule DType.bf16 [8, 1] DType.f32 = Outcome.pass :=
  ((assert_dtype_two_applications constModule DType.bf16 [8, 1]
      (PyTree.leaf ⟨DType.bf16, 0⟩) (PyTree.leaf ⟨DType.bf16, 1⟩)
      ⟨[8, 1], DType.bf16, 42⟩
      (PyTree.leaf ⟨DType.bf16, 0⟩) (PyTree.leaf ⟨DType.bf16, 1⟩)
      (PyTree.leaf ⟨DType.bf16, 0⟩) (PyTree.leaf ⟨DType.bf16, 1⟩)
      rfl rfl rfl rfl rfl).2.1).mpr
    ⟨fun v hv _ => by simp [PyTree.leaves] at hv; simp [hv],
     fun v hv _ => by simp [PyTree.leaves] at hv; simp [hv],
     fun v hv _ => by simp [PyTree.leaves] at hv; simp [hv],
     fun v hv _ => by simp [PyTree.leaves] at hv; simp [hv]⟩

/-- C5: `assert_dtype` skips if and only if the first local device
platform is not `'tpu'` or the declared input dtype is not float32
(returning before any cast or application), and in particular the
`Embed` descriptor, whose declared dtype is int32, is skipped on every
platform and for every module and test dtype. -/
theorem assert_dtype_skip_iff :
    (∀ (platform : String) (m : TModule) (td : DType) (shape : List Nat)
        (input_dtype : DType),
        assert_dtype platform m td shape input_dtype = Outcome.skip ↔
          (platform ≠ "tpu" ∨ input_dtype ≠ DType.f32)) ∧
    (∀ (platform : String) (m : TModule) (td : DType),
        assert_dtype platform m td EmbedDescriptor.shape EmbedDescriptor.dtype =
          Outcome.skip) ∧
    EmbedDescriptor.name = "Embed" ∧ EmbedDescriptor.dtype = DType.i32 := by
  have hiff : ∀ (platform : String) (m : TModule) (td : DType) (shape : List Nat)
      (input_dtype : DType),
      assert_dtype platform m td shape input_dtype = Outcome.skip ↔
        (platform ≠ "tpu" ∨ input_dtype ≠ DType.f32) := by
    intro platform m td shape idt
    unfold assert_dtype
    split_ifs with hplat hdt
    · simp [hplat]
    · simp [hdt]
    · have hne : assert_dtype_body m td shape (PRNGKey 42) ≠ Outcome.skip := by
        simp only [assert_dtype_body]
        exact applyLoop_ne_skip m td _ (PRNGKey 42) _ 2 _
      simp only [ne_eq, not_not] at hplat hdt
      exact iff_of_false hne (by simp [hplat, hdt])
  refine ⟨hiff, fun platform m td => ?_, rfl, rfl⟩
  exact (hiff platform m td EmbedDescriptor.shape EmbedDescriptor.dtype).mpr
    (Or.inr (by decide))

/-- C8: the casting step maps over every leaf of a parameter/state tree
and replaces exactly the float32 leaves with the same value cast to the
test dtype; leaves of every other dtype come back unchanged. -/
theorem cast_touches_exactly_f32_leaves :
    ∀ (td : DType) (t : PyTree ArrayVal),
      (t.map (f32_to_test_dtype td)).leaves =
        t.leaves.map (fun v =>
          if v.dtype = DType.f32 then ArrayVal.astype v td else v) := by
  intro td t
  induction t with
  | leaf v => rfl
  | nil => rfl
  | cons hd tl ih1 ih2 => simp [PyTree.map, PyTree.leaves, ih1, ih2]

/-- C10: the test harness fixes the test dtype of every run to bfloat16
and the check fixes its pseudo-random key to `PRNGKey 42`, so for a
given descriptor, module semantics and platform the whole check is one
pure function of those arguments — identical across runs. -/
theorem bfloat16_fixed_dtype_and_seed :
    (∀ (platform : String) (sem : (Unit → Mod) → TModule) (d : ModuleDescriptor),
        test_bfloat16 platform sem d =
          assert_dtype platform (sem d.create) DType.bf16 d.shape d.dtype) ∧
    (∀ (m : TModule) (td : DType) (shape : List Nat),
        assert_dtype "tpu" m td shape DType.f32 =
          assert_dtype_body m td shape (PRNGKey 42)) := by
  refine ⟨fun _ _ _ => rfl, fun m td shape => ?_⟩
  simp [assert_dtype]

end Descriptors
